import Mathlib

/-!
Shallow embedding of the BFT2F library (replica consensus engine, hash-chain
digest, version vector, reply cache, client quorum logic) and verification of
its documented behaviour.

Modelling conventions, used uniformly below:

* SHA-256 is not embeddable, so every hash-chain definition is parametric in a
  hash function `H : String → String`; `modelHash` is the concrete injective
  stand-in used for evaluation.  The Python code hashes
  `str(self.data) + str(self.previous_hash)`; `str(data)` (the default object
  repr of the request object) is modelled as an opaque `String` field.
* Python compares instances of classes without `__eq__` by object identity.
  Where the code relies on such comparisons (request messages, reply entries,
  reply messages, commit messages, `HashChainDigest` references), the modelled
  object carries an `oid : Nat` field standing for its identity: distinct
  objects have distinct `oid`s and equal `oid`s mean the same object.
* Python `float` timestamps are modelled as `Int`; only `<`, `==`, `>`
  comparisons on them occur in the embedded code.
* Raised exceptions are modelled with `Except PyError`; an error value records
  the exception type that Python would raise at that point.  Mutations already
  performed before the raise are not tracked past the error.
* Python `dict`s preserve insertion order; they are modelled as association
  lists, with lookup scanning from the front (keys are unique by construction).
-/

/-- Exception kinds raised by the embedded code paths. -/
inductive PyError where
  | attributeError
  | keyError
  | indexError
  | nameError
deriving DecidableEq

/-- The concrete injective hash function used to evaluate the parametric
definitions on explicit inputs. -/
def modelHash (s : String) : String := "#" ++ s

/-- library/request_message.py, class RequestMessage.  `oid` models object
identity; `current_system_state` is the string field of the constructor. -/
structure RequestMessage where
  oid : Nat
  operation : String
  timestamp : Int
  client_id : Nat
  current_system_state : String
deriving DecidableEq

/-- Python object identity of two request messages. -/
def pyEqReq (a b : RequestMessage) : Bool := a.oid == b.oid

/-- RequestMessage.to_string: the Message base prefix (type REQUEST, no view,
no sequence number) followed by the request fields. -/
def RequestMessage.to_string (m : RequestMessage) : String :=
  "Type: MessageType.REQUEST, View: None, Sequence Number: None, Client ID: " ++
    (toString m.client_id ++ (", Operation: " ++ (m.operation ++ (", Timestamp: " ++
      (toString m.timestamp ++ (", Current System State: " ++ m.current_system_state))))))

/-- library/hash_chain_digest.py, class HashChainBlock.  `data` models
`str(self.data)` (the repr of the stored request object); `timestamp` is the
`time.time()` value sampled at construction. -/
structure HashChainBlock where
  data : String
  sequence_number : Nat
  timestamp : Int
  previous_hash : String
  hash : String
deriving DecidableEq

/-- HashChainBlock.calculate_hash: hashes `str(self.data) + str(self.previous_hash)`.
The sequence number is not part of the preimage. -/
def HashChainBlock.calculate_hash (H : String → String) (data previous_hash : String) : String :=
  H (data ++ previous_hash)

/-- HashChainBlock.__init__ with the creation time passed explicitly. -/
def HashChainBlock.make (H : String → String) (data : String) (sequence_number : Nat)
    (now : Int) (previous_hash : String) : HashChainBlock :=
  { data := data, sequence_number := sequence_number, timestamp := now,
    previous_hash := previous_hash,
    hash := HashChainBlock.calculate_hash H data previous_hash }

/-- library/hash_chain_digest.py, class HashChainDigest: the `chain` list. -/
abbrev HashChainDigest := List HashChainBlock

/-- HashChainDigest.add_block: previous hash is `"0"` on the empty chain and the
last block's hash otherwise; the block is appended unconditionally (there is no
check relating `sequence_number` to the chain length). -/
def HashChainDigest.add_block (H : String → String) (chain : HashChainDigest)
    (now : Int) (block_data : String) (sequence_number : Nat) : HashChainDigest :=
  let previous_hash :=
    match chain.getLast? with
    | none => "0"
    | some b => b.hash
  chain ++ [HashChainBlock.make H block_data sequence_number now previous_hash]

/-- A chain produced by a sequence of `add_block` calls (creation time, block
data, sequence number) starting from the empty chain of `__init__`. -/
def HashChainDigest.build (H : String → String) (calls : List (Int × String × Nat)) :
    HashChainDigest :=
  calls.foldl (fun ch c => HashChainDigest.add_block H ch c.1 c.2.1 c.2.2) []

/-- The previous-hash value `add_block` would use, generalised over the genesis
digest `p`. -/
def lastHashFrom (p : String) : List HashChainBlock → String
  | [] => p
  | b :: rest => lastHashFrom b.hash rest

/-- The chain is correctly linked starting from genesis digest `p`. -/
def linkedFrom (p : String) : List HashChainBlock → Bool
  | [] => true
  | b :: rest => (b.previous_hash == p) && linkedFrom b.hash rest

theorem getLast?_eq_lastHashFrom (ch : List HashChainBlock) (p : String) :
    (match ch.getLast? with | none => p | some b => b.hash) = lastHashFrom p ch := by
  induction ch generalizing p with
  | nil => rfl
  | cons b rest ih =>
    cases rest with
    | nil => rfl
    | cons c cs =>
      have h2 := ih b.hash
      simpa [lastHashFrom, List.getLast?] using h2

theorem linkedFrom_append (ch : List HashChainBlock) (p : String) (b : HashChainBlock)
    (hprev : b.previous_hash = lastHashFrom p ch) (h : linkedFrom p ch = true) :
    linkedFrom p (ch ++ [b]) = true := by
  induction ch generalizing p with
  | nil =>
    simp [lastHashFrom] at hprev
    simp [linkedFrom, hprev]
  | cons c rest ih =>
    simp only [lastHashFrom] at hprev
    simp only [linkedFrom, Bool.and_eq_true] at h
    simp only [List.cons_append, linkedFrom, Bool.and_eq_true]
    exact ⟨h.1, ih c.hash hprev h.2⟩

theorem add_block_preserves_linked (H : String → String) (ch : HashChainDigest)
    (now : Int) (d : String) (n : Nat) (h : linkedFrom "0" ch = true) :
    linkedFrom "0" (HashChainDigest.add_block H ch now d n) = true := by
  apply linkedFrom_append ch "0" _ _ h
  show (match ch.getLast? with | none => "0" | some b => b.hash) = lastHashFrom "0" ch
  exact getLast?_eq_lastHashFrom ch "0"

theorem build_linked (H : String → String) (calls : List (Int × String × Nat)) :
    linkedFrom "0" (HashChainDigest.build H calls) = true := by
  suffices h : ∀ ch, linkedFrom "0" ch = true →
      linkedFrom "0" (calls.foldl (fun c a => HashChainDigest.add_block H c a.1 a.2.1 a.2.2) ch) = true by
    exact h [] rfl
  induction calls with
  | nil => intro ch hch; exact hch
  | cons c cs ih =>
    intro ch hch
    exact ih _ (add_block_preserves_linked H ch c.1 c.2.1 c.2.2 hch)

theorem linkedFrom_chain (ch : List HashChainBlock) (p : String)
    (h : linkedFrom p ch = true) :
    (ch.head?.all (fun b => b.previous_hash == p)) = true
    ∧ List.Chain' (fun a b => b.previous_hash = a.hash) ch := by
  induction ch generalizing p with
  | nil => simp
  | cons c rest ih =>
    simp only [linkedFrom, Bool.and_eq_true] at h
    obtain ⟨h1, h2⟩ := h
    refine ⟨by simpa using h1, ?_⟩
    rw [List.chain'_cons']
    refine ⟨?_, (ih c.hash h2).2⟩
    intro b hb
    have h3 := (ih c.hash h2).1
    cases hr : rest.head? with
    | none => simp [hr] at hb
    | some b2 =>
      rw [hr] at hb h3
      cases hb
      simpa using h3

theorem build_hash_preimage (H : String → String) (calls : List (Int × String × Nat)) :
    ∀ b ∈ HashChainDigest.build H calls, b.hash = H (b.data ++ b.previous_hash) := by
  suffices h : ∀ ch, (∀ b ∈ ch, b.hash = H (b.data ++ b.previous_hash)) →
      ∀ b ∈ calls.foldl (fun c a => HashChainDigest.add_block H c a.1 a.2.1 a.2.2) ch,
        b.hash = H (b.data ++ b.previous_hash) by
    exact h [] (by simp)
  induction calls with
  | nil => intro ch hch; exact hch
  | cons c cs ih =>
    intro ch hch
    apply ih
    intro b hb
    simp only [HashChainDigest.add_block, List.mem_append, List.mem_singleton] at hb
    cases hb with
    | inl h1 => exact hch b h1
    | inr h2 =>
      subst h2
      rfl

/-- Claim C2 (corrected): for every block appended by `add_block`, the stored
hash is `H(str(data) ++ prev)`; the sequence number is NOT part of the hash
preimage.  The amended statement proved here: every block of a chain built by
`add_block` calls satisfies `hash = H(data ++ previous_hash)`. -/
theorem C2_thm (H : String → String) (calls : List (Int × String × Nat)) :
    ∀ b ∈ HashChainDigest.build H calls, b.hash = H (b.data ++ b.previous_hash) :=
  build_hash_preimage H calls

/-- Witness for C2_thm at a concrete one-block chain. -/
theorem C2_w :
    { data := "d", sequence_number := 1, timestamp := 0, previous_hash := "0",
      hash := "#d0" } ∈ HashChainDigest.build modelHash [(0, "d", 1)]
    ∧ ({ data := "d", sequence_number := 1, timestamp := 0, previous_hash := "0",
         hash := "#d0" } : HashChainBlock).hash = modelHash ("d" ++ "0") :=
  ⟨by decide, C2_thm modelHash [(0, "d", 1)] _ (by decide)⟩

/-- Counterexample to claim C2 as stated: with the injective model hash, the
stored hash of the appended block is `H("d" ++ "0") = "#d0"`, which differs
from the claimed `H(n ++ encode(data) ++ prev) = H("1d0") = "#1d0"`. -/
theorem C2_cex :
    (HashChainDigest.build modelHash [(0, "d", 1)]).map HashChainBlock.hash = ["#d0"]
    ∧ "#d0" ≠ modelHash (toString (1 : Nat) ++ "d" ++ "0") := by
  decide

/-- Claim C3 (corrected): `add_block` performs no sequence-number check at all:
for every chain and every sequence number (equal to the chain length or not) it
appends one block carrying exactly the given sequence number, and it cannot
fail (there is no SequenceGap error in the code). -/
theorem C3_thm (H : String → String) (ch : HashChainDigest) (now : Int)
    (d : String) (n : Nat) :
    (HashChainDigest.add_block H ch now d n).length = ch.length + 1
    ∧ (HashChainDigest.add_block H ch now d n).map HashChainBlock.sequence_number
        = ch.map HashChainBlock.sequence_number ++ [n] := by
  constructor
  · simp [HashChainDigest.add_block]
  · simp [HashChainDigest.add_block, HashChainBlock.make]

/-- Counterexample to claim C3 as stated: appending with sequence number 5 to
the empty chain (length 0, so `seq != len(chain)`) succeeds and changes the
chain instead of failing with a SequenceGap error. -/
theorem C3_cex :
    (5 : Nat) ≠ ([] : HashChainDigest).length
    ∧ HashChainDigest.add_block modelHash [] 0 "d" 5
        = [{ data := "d", sequence_number := 5, timestamp := 0,
             previous_hash := "0", hash := "#d0" }] := by
  decide

/-- Claim C4 (corrected): every chain built by `add_block` calls from the empty
chain has `previous_hash = "0"` on block 0 and `block[i].previous_hash =
block[i-1].hash` for i > 0.  The contiguity conjunct of the claim is dropped:
`add_block` stores whatever sequence number it is given (see C4_cex). -/
theorem C4_thm (H : String → String) (calls : List (Int × String × Nat)) :
    ((HashChainDigest.build H calls).head?.all (fun b => b.previous_hash == "0")) = true
    ∧ List.Chain' (fun a b => b.previous_hash = a.hash) (HashChainDigest.build H calls) :=
  linkedFrom_chain _ _ (build_linked H calls)

/-- Counterexample to claim C4 as stated: the chain built by appending sequence
numbers 0 and then 5 satisfies the two linking conjuncts but not the contiguity
conjunct, so the claimed three-way conjunction fails. -/
theorem C4_cex :
    ¬ ((((HashChainDigest.build modelHash [(0, "a", 0), (0, "b", 5)]).head?.all
          (fun b => b.previous_hash == "0")) = true)
        ∧ List.Chain' (fun a b => b.previous_hash = a.hash)
            (HashChainDigest.build modelHash [(0, "a", 0), (0, "b", 5)])
        ∧ List.Chain' (fun a b => b = a + 1)
            ((HashChainDigest.build modelHash [(0, "a", 0), (0, "b", 5)]).map
              HashChainBlock.sequence_number)) := by
  intro h
  have hc := h.2.2
  rw [show (HashChainDigest.build modelHash [(0, "a", 0), (0, "b", 5)]).map
        HashChainBlock.sequence_number = [0, 5] from by decide] at hc
  simp [List.chain'_cons] at hc

/-- library/version_vector.py, class VersionVectorEntry.  `hcd` is the object
identity token of the referenced HashChainDigest (entries are grouped by that
reference in `get_current_system_state`). -/
structure VersionVectorEntry where
  replica_id : Nat
  view : Nat
  sequence_number : Nat
  hcd : Nat
deriving DecidableEq

/-- library/version_vector.py, class VersionVector: insertion-ordered dict from
principal id to the list of its entries. -/
abbrev VersionVector := List (Nat × List VersionVectorEntry)

/-- VersionVector.update_entry: appends a fresh entry to the principal's list,
creating the list first when the principal is absent. -/
def VersionVector.update_entry (v : VersionVector) (vector_id entry_id view
    sequence_number hcd : Nat) : VersionVector :=
  if v.any (fun pv => pv.1 == vector_id) then
    v.map (fun pv =>
      if pv.1 == vector_id then
        (pv.1, pv.2 ++ [⟨entry_id, view, sequence_number, hcd⟩])
      else pv)
  else v ++ [(vector_id, [⟨entry_id, view, sequence_number, hcd⟩])]

/-- VersionVector.get_entry: `self.vector[vector_replica_id][entry_replica_id]`.
A missing principal raises KeyError; the second id is a LIST INDEX into that
principal's entry list and raises IndexError when out of range. -/
def VersionVector.get_entry (v : VersionVector) (vector_replica_id
    entry_replica_id : Nat) : Except PyError VersionVectorEntry :=
  match v.find? (fun pv => pv.1 == vector_replica_id) with
  | none => Except.error .keyError
  | some pv =>
    match pv.2[entry_replica_id]? with
    | none => Except.error .indexError
    | some e => Except.ok e

/-- VersionVector.is_empty. -/
def VersionVector.is_empty (v : VersionVector) : Bool := v.isEmpty

/-- The key `(str(seq), hcd)` under which `get_current_system_state` groups
entries. -/
def entryKey (e : VersionVectorEntry) : String × Nat :=
  (toString e.sequence_number, e.hcd)

/-- One step of building the `counter` dict: append the entry to its key group,
creating the group at the end on first occurrence (dict insertion order). -/
def addToCounter (counter : List ((String × Nat) × List VersionVectorEntry))
    (e : VersionVectorEntry) : List ((String × Nat) × List VersionVectorEntry) :=
  if counter.any (fun kv => kv.1 == entryKey e) then
    counter.map (fun kv =>
      if kv.1 == entryKey e then (kv.1, kv.2 ++ [e]) else kv)
  else counter ++ [(entryKey e, [e])]

/-- All entries of the vector in iteration order
(`for entries in self.vector.values(): for entry in entries`). -/
def allEntries : VersionVector → List VersionVectorEntry
  | [] => []
  | pv :: rest => pv.2 ++ allEntries rest

/-- Python `min(entries, key=lambda entry: entry.get_replica_id())`: the first
entry of minimal replica id (min keeps the earlier element on ties). -/
def pyMinByReplica (l : List VersionVectorEntry) : Option VersionVectorEntry :=
  match l with
  | [] => none
  | x :: xs =>
    some (xs.foldl (fun best e => if e.replica_id < best.replica_id then e else best) x)

/-- VersionVector.get_current_system_state: groups ALL entries of ALL
principals by `(str(seq), hcd)`, returns for the first group (in first
occurrence order) whose total size reaches `2f+1` the entry of lowest
replica id, and None when no group reaches that size. -/
def VersionVector.get_current_system_state (v : VersionVector) (f : Nat) :
    Option VersionVectorEntry :=
  match ((allEntries v).foldl addToCounter []).find?
      (fun kv => decide (2 * f + 1 ≤ kv.2.length)) with
  | some kv => pyMinByReplica kv.2
  | none => none

/-- Keys of the counter in first-occurrence order. -/
def firstKeys (es : List VersionVectorEntry) : List (String × Nat) :=
  es.foldl (fun ks e => if entryKey e ∈ ks then ks else ks ++ [entryKey e]) []

theorem firstKeys_mono (es : List VersionVectorEntry)
    (ks : List (String × Nat)) (k : String × Nat) (h : k ∈ ks) :
    k ∈ es.foldl (fun ks e => if entryKey e ∈ ks then ks else ks ++ [entryKey e]) ks := by
  induction es generalizing ks with
  | nil => exact h
  | cons e es ih =>
    apply ih
    by_cases he : entryKey e ∈ ks
    · simpa [he] using h
    · simp [he, List.mem_append]
      exact Or.inl h

theorem firstKeys_complete (es : List VersionVectorEntry)
    (ks : List (String × Nat)) (e : VersionVectorEntry) (h : e ∈ es) :
    entryKey e ∈ es.foldl (fun ks e => if entryKey e ∈ ks then ks else ks ++ [entryKey e]) ks := by
  induction es generalizing ks with
  | nil => cases h
  | cons a es ih =>
    rw [List.foldl_cons]
    cases h with
    | head =>
      apply firstKeys_mono
      by_cases ha : entryKey e ∈ ks
      · simp [ha]
      · simp [ha]
    | tail _ h2 => exact ih _ h2

theorem firstKeys_concat (es : List VersionVectorEntry) (e : VersionVectorEntry) :
    firstKeys (es ++ [e]) =
      if entryKey e ∈ firstKeys es then firstKeys es
      else firstKeys es ++ [entryKey e] := by
  simp [firstKeys, List.foldl_append]

theorem counter_closed (es : List VersionVectorEntry) :
    es.foldl addToCounter [] =
      (firstKeys es).map (fun k => (k, es.filter (fun e2 => entryKey e2 == k))) := by
  induction es using List.reverseRecOn with
  | nil => rfl
  | append_singleton es e ih =>
    rw [List.foldl_append, List.foldl_cons, List.foldl_nil, ih, firstKeys_concat]
    by_cases hk : entryKey e ∈ firstKeys es
    · rw [if_pos hk]
      have hany : ((firstKeys es).map
          (fun k => (k, es.filter (fun e2 => entryKey e2 == k)))).any
            (fun kv => kv.1 == entryKey e) = true := by
        simp only [List.any_eq_true, List.mem_map]
        exact ⟨_, ⟨entryKey e, hk, rfl⟩, by simp⟩
      rw [addToCounter, if_pos hany, List.map_map, List.map_eq_map_iff]
      intro k hkm
      simp only [Function.comp]
      by_cases hek : k = entryKey e
      · subst hek
        simp [List.filter_append]
      · have hbe : (k == entryKey e) = false := beq_eq_false_iff_ne.mpr hek
        have hbe2 : (entryKey e == k) = false :=
          beq_eq_false_iff_ne.mpr (fun h2 => hek h2.symm)
        simp [List.filter_append, hbe, hbe2]
    · rw [if_neg hk]
      have hany : ((firstKeys es).map
          (fun k => (k, es.filter (fun e2 => entryKey e2 == k)))).any
            (fun kv => kv.1 == entryKey e) = false := by
        simp only [List.any_eq_false, List.mem_map]
        rintro kv ⟨k, hkm, rfl⟩
        simp only [beq_iff_eq]
        exact fun h2 => hk (h2 ▸ hkm)
      rw [addToCounter, if_neg (by simp [hany]), List.map_append]
      congr 1
      · rw [List.map_eq_map_iff]
        intro k hkm
        have hek : (entryKey e == k) = false := by
          apply beq_eq_false_iff_ne.mpr
          intro h2
          exact hk (h2 ▸ hkm)
        simp [List.filter_append, hek]
      · have hfil : es.filter (fun e2 => entryKey e2 == entryKey e) = [] := by
          rw [List.filter_eq_nil_iff]
          intro a ha
          simp only [beq_iff_eq]
          intro h2
          exact hk (h2 ▸ firstKeys_complete es [] a ha)
        simp [List.filter_append, hfil]

/-- Claim C5 (corrected): `get_current_system_state` counts ALL entries of ALL
principals (a single principal may contribute several, and no latest-entry or
distinct-principal restriction exists).  Amended statement proved here: the
result is obtained from the first `(str(seq), hcd)` key, in first-occurrence
order over the flattened entry lists, whose TOTAL number of matching entries
across all principals' full entry lists reaches `2f+1`, returning the lowest
replica id entry of that group, and None when no key reaches that count. -/
theorem C5_thm (v : VersionVector) (f : Nat) :
    VersionVector.get_current_system_state v f =
      match (firstKeys (allEntries v)).find?
          (fun k => decide (2 * f + 1 ≤
            ((allEntries v).filter (fun e2 => entryKey e2 == k)).length)) with
      | some k => pyMinByReplica ((allEntries v).filter (fun e2 => entryKey e2 == k))
      | none => none := by
  unfold VersionVector.get_current_system_state
  rw [counter_closed, List.find?_map]
  have hcomp : ((fun kv : (String × Nat) × List VersionVectorEntry =>
        decide (2 * f + 1 ≤ kv.2.length)) ∘
      (fun k => (k, (allEntries v).filter (fun e2 => entryKey e2 == k)))) =
      (fun k => decide (2 * f + 1 ≤
        ((allEntries v).filter (fun e2 => entryKey e2 == k)).length)) := rfl
  rw [hcomp]
  cases hf : (firstKeys (allEntries v)).find?
      (fun k => decide (2 * f + 1 ≤
        ((allEntries v).filter (fun e2 => entryKey e2 == k)).length)) with
  | none => rfl
  | some k => rfl

/-- Modelled from the claim wording, for comparison with the code: the entry
whose `(seq, digest)` pair appears in the LATEST entry of at least `2f+1`
distinct principals, ties broken by lowest replica id, and None otherwise. -/
def spec_current_system_state (v : VersionVector) (f : Nat) :
    Option VersionVectorEntry :=
  let latests := v.filterMap (fun pv => pv.2.getLast?)
  pyMinByReplica (latests.filter
    (fun e => decide (2 * f + 1 ≤ latests.countP
      (fun e2 => e2.sequence_number == e.sequence_number && e2.hcd == e.hcd))))

/-- Counterexample to claim C5 as stated: a vector in which a SINGLE principal
(id 7) holds three entries with the same `(seq, digest)`.  With f = 1 the code
returns the lowest-replica-id entry of that group although only one principal
is involved; the claim's latest-entries-of-distinct-principals reading yields
None. -/
theorem C5_cex :
    VersionVector.get_current_system_state
        [(7, [⟨1, 1, 2, 0⟩, ⟨2, 1, 2, 0⟩, ⟨3, 1, 2, 0⟩])] 1
      = some ⟨1, 1, 2, 0⟩
    ∧ spec_current_system_state
        [(7, [⟨1, 1, 2, 0⟩, ⟨2, 1, 2, 0⟩, ⟨3, 1, 2, 0⟩])] 1 = none := by
  decide

/-- library/reply_message.py, class Entry (the signed reply entry).  `oid`
models object identity, `hcd` the identity token of the referenced digest. -/
structure Entry where
  oid : Nat
  replica_id : Nat
  view : Nat
  sequence_number : Nat
  hcd : Nat
deriving DecidableEq

/-- Entry.to_string. -/
def Entry.to_string (e : Entry) : String :=
  "Replica ID: " ++ toString e.replica_id ++ ", View: " ++ toString e.view ++
    ", Sequence Number: " ++ toString e.sequence_number ++ ", HCD: " ++ toString e.hcd

/-- library/reply_message.py, class ReplyMessage.  `result` holds the printed
form of the result value (the replica passes the boolean True). -/
structure ReplyMessage where
  oid : Nat
  client_id : Nat
  timestamp : Int
  result : String
  entry : Entry
deriving DecidableEq

/-- Python object identity of two reply messages. -/
def pyEqReply (a b : ReplyMessage) : Bool := a.oid == b.oid

/-- ReplyMessage.to_string: the Message base prefix (type REPLY, no view, no
sequence number) followed by the reply fields. -/
def ReplyMessage.to_string (m : ReplyMessage) : String :=
  "Type: MessageType.REPLY, View: None, Sequence Number: None, Client ID: " ++
    (toString m.client_id ++ (", Timestamp: " ++ (toString m.timestamp ++
      (", Result: " ++ (m.result ++ (", Entry: " ++ m.entry.to_string))))))

/-- A value stored in the reply cache.  ReplyCache.update_cache is declared to
take a ReplyMessage, but receive_commit stores `reply_message.to_string()`, a
plain string; both shapes therefore occur. -/
inductive ReplyCacheVal where
  | rmsg (m : ReplyMessage)
  | rstr (s : String)
deriving DecidableEq

/-- library/reply_cache.py: dict from client id to the cached value.
`get_reply` returns None for an unknown client. -/
def pyGetCache (c : List (Nat × ReplyCacheVal)) (cid : Nat) : Option ReplyCacheVal :=
  (c.find? (fun kv => kv.1 == cid)).map (fun kv => kv.2)

/-- ReplyCache.update_cache: insert or overwrite the client's cached value. -/
def pyPutCache (c : List (Nat × ReplyCacheVal)) (cid : Nat) (v : ReplyCacheVal) :
    List (Nat × ReplyCacheVal) :=
  if c.any (fun kv => kv.1 == cid) then
    c.map (fun kv => if kv.1 == cid then (kv.1, v) else kv)
  else c ++ [(cid, v)]

/-- library/preprepare_message.py, class PrePrepareMessage. -/
structure PrePrepareMessage where
  primary_replica_id : Nat
  view : Nat
  sequence_number : Nat
  request_msg : RequestMessage
deriving DecidableEq

/-- library/prepare_message.py, class PrepareMessage. -/
structure PrepareMessage where
  replica_id : Nat
  view : Nat
  sequence_number : Nat
  request_msg : RequestMessage
deriving DecidableEq

/-- library/commit_message.py, class CommitMessage.  `hcd` is the identity
token of the digest object the sender attached. -/
structure CommitMessage where
  oid : Nat
  replica_id : Nat
  view : Nat
  sequence_number : Nat
  hcd : Nat
deriving DecidableEq

/-- Python object identity of two commit messages. -/
def pyEqCommit (a b : CommitMessage) : Bool := a.oid == b.oid

/-- library/view_change_message.py, class ViewChangeMessage: the new view, the
sender, the `last_committed` version-vector entry and the prepared
certificates P. -/
structure ViewChangeMessage where
  new_view : Nat
  replica_id : Nat
  version_vector_entry : VersionVectorEntry
  P : List (List PrePrepareMessage)
deriving DecidableEq

/-- library/checkpoint_message.py, class CheckpointMessage. -/
structure CheckpointMessage where
  replica_id : Nat
  sequence_number : Nat
  rcache : Option ReplyCacheVal
  vv : VersionVector
  E : List VersionVectorEntry
deriving DecidableEq

/-- library/replica.py, the mutable per-replica state set up by
Replica.__init__.  Networking fields (host, port, socket, lock, timer) and the
peer object list are outside the model; `clients` keeps the ids of the known
client objects, `hcd_oid` the identity token of this replica's own
HashChainDigest object. -/
structure ReplicaState where
  f : Nat
  replica_id : Nat
  view : Nat
  primary : Bool
  reply_cache : List (Nat × ReplyCacheVal)
  version_vector : VersionVector
  chain : HashChainDigest
  hcd_oid : Nat
  clients : List Nat
  accepted_requests : List RequestMessage
  received_pre_prepare_messages : List PrePrepareMessage
  received_prepare_messages : List PrepareMessage
  received_commit_messages : List CommitMessage
  received_view_change_messages : List ViewChangeMessage
  pending_checkpoints : List (Nat × CheckpointMessage)
deriving DecidableEq

/-- Replica.__init__: the id is modelled as an argument (the source assigns it
from a class-level counter).  The primary flag is computed as
`view % (3*(f+1)) == replica_id` — note the modulus 3*(f+1), not the system
size N = 3f+1. -/
def Replica.init (f view replica_id hcd_oid : Nat) (clients : List Nat) : ReplicaState :=
  { f := f, replica_id := replica_id, view := view,
    primary := view % (3 * (f + 1)) == replica_id,
    reply_cache := [], version_vector := [], chain := [], hcd_oid := hcd_oid,
    clients := clients, accepted_requests := [],
    received_pre_prepare_messages := [], received_prepare_messages := [],
    received_commit_messages := [], received_view_change_messages := [],
    pending_checkpoints := [] }

/-- Claim C1 (corrected): the replica's primary flag is set iff
`view mod (3*(f+1))` equals its replica id.  The modulus the code uses is
3*(f+1) = 3f+3, not the system size N. -/
theorem C1_thm (f view replica_id hcd_oid : Nat) (clients : List Nat) :
    (Replica.init f view replica_id hcd_oid clients).primary
      = (view % (3 * (f + 1)) == replica_id) := rfl

/-- Counterexample to claim C1 as stated: in the minimal system for f = 1 the
replica count is N = 3f+1 = 4, and `primary(4) = 4 mod 4 = 0` designates
replica 0; the code computes `4 mod 6 = 4` and leaves replica 0's primary flag
false (indeed no replica id in 0..3 satisfies it). -/
theorem C1_cex :
    (4 % 4 = 0) ∧ (Replica.init 1 4 0 0 []).primary = false := by
  decide

/-- The window check of receive_pre_prepare: with a non-empty chain, sequence
numbers more than 2 away from the last block's sequence number are refused
(the lower bound is an int comparison, so it can be negative). -/
def ppWindowBad (chain : HashChainDigest) (n : Nat) : Bool :=
  match chain.getLast? with
  | none => false
  | some b => ((n : Int) > (b.sequence_number : Int) + 2)
      || ((n : Int) < (b.sequence_number : Int) - 2)

/-- Replica.receive_pre_prepare.  When the store is empty the message is first
appended (so the duplicate scan compares it with itself and passes); a stored
pre-prepare with the same sequence number but a different request object causes
a silent return; then the window check; otherwise the message is appended
(again, if the store was empty) and a PREPARE is multicast.  There is NO check
of the primary flag anywhere.  find_replica/add_replica only touch the peer
directory and are outside the model. -/
def receive_pre_prepare (st : ReplicaState) (data : PrePrepareMessage) :
    ReplicaState × Option PrepareMessage :=
  let store :=
    if st.received_pre_prepare_messages.isEmpty
    then st.received_pre_prepare_messages ++ [data]
    else st.received_pre_prepare_messages
  if store.any (fun m => m.sequence_number == data.sequence_number
      && !(pyEqReq m.request_msg data.request_msg)) then
    ({st with received_pre_prepare_messages := store}, none)
  else if ppWindowBad st.chain data.sequence_number then
    ({st with received_pre_prepare_messages := store}, none)
  else
    ({st with received_pre_prepare_messages := store ++ [data]},
      some { replica_id := st.replica_id, view := st.view,
             sequence_number := data.sequence_number,
             request_msg := data.request_msg })

theorem pp_dup_all_any (l : List PrePrepareMessage) (data : PrePrepareMessage) :
    l.all (fun m => m.sequence_number != data.sequence_number
        || pyEqReq m.request_msg data.request_msg)
      = !(l.any (fun m => m.sequence_number == data.sequence_number
        && !(pyEqReq m.request_msg data.request_msg))) := by
  induction l with
  | nil => rfl
  | cons a l ih =>
    rw [List.all_cons, List.any_cons, Bool.not_or, ih]
    congr 1
    cases hseq : (a.sequence_number == data.sequence_number) <;>
      cases hpe : pyEqReq a.request_msg data.request_msg <;>
      simp [bne, hseq, hpe]

/-- Claim C7 (corrected): the PREPARE emission of receive_pre_prepare does not
depend on the primary flag at all: ANY replica — the primary included — that
passes the duplicate and window checks multicasts a PREPARE for the received
pre-prepare. -/
theorem C7_thm (st : ReplicaState) (data : PrePrepareMessage) :
    ((receive_pre_prepare st data).2 =
      (if st.received_pre_prepare_messages.all
            (fun m => m.sequence_number != data.sequence_number
              || pyEqReq m.request_msg data.request_msg)
          && !ppWindowBad st.chain data.sequence_number
       then some { replica_id := st.replica_id, view := st.view,
                   sequence_number := data.sequence_number,
                   request_msg := data.request_msg }
       else none))
    ∧ (receive_pre_prepare { st with primary := true } data).2
        = (receive_pre_prepare { st with primary := false } data).2 := by
  constructor
  · unfold receive_pre_prepare
    rw [pp_dup_all_any]
    cases hst : st.received_pre_prepare_messages with
    | nil =>
      cases hw : ppWindowBad st.chain data.sequence_number <;> simp [hw, pyEqReq]
    | cons a l =>
      cases hany : (a :: l).any (fun m => m.sequence_number == data.sequence_number
          && !(pyEqReq m.request_msg data.request_msg)) <;>
        cases hw : ppWindowBad st.chain data.sequence_number <;>
        simp [hany, hw]
  · unfold receive_pre_prepare
    cases hst : st.received_pre_prepare_messages with
    | nil =>
      cases hw : ppWindowBad st.chain data.sequence_number <;> simp [hw, pyEqReq]
    | cons a l =>
      cases hany : (a :: l).any (fun m => m.sequence_number == data.sequence_number
          && !(pyEqReq m.request_msg data.request_msg)) <;>
        cases hw : ppWindowBad st.chain data.sequence_number <;>
        simp [hany, hw]

/-- A pre-prepare message used by the C7 counterexample. -/
def cPP7 : PrePrepareMessage :=
  { primary_replica_id := 5, view := 0, sequence_number := 1,
    request_msg := { oid := 21, operation := "x", timestamp := 3, client_id := 0,
                     current_system_state := "none" } }

/-- Counterexample to claim C7 as stated: a freshly booted replica whose
primary flag is true (replica 0 at view 0, f = 1) processes a PRE_PREPARE and
multicasts a PREPARE — the primary does emit PREPAREs. -/
theorem C7_cex :
    (Replica.init 1 0 0 9 []).primary = true
    ∧ (receive_pre_prepare (Replica.init 1 0 0 9 []) cPP7).2
        = some { replica_id := 0, view := 0, sequence_number := 1,
                 request_msg := cPP7.request_msg } := by
  decide

/-- Replica.receive_view_change, through the dominance check: the message is
stored, then the check compares the message's last-committed entry with the
receiver's own `vector[replica_id][replica_id]` entry.  Every path raises:
the own-entry lookup may raise KeyError/IndexError; when
`data.entry.view < own.view` holds, the PRIMARY_NOT_DOMINANT send calls
`get_replica()` on a VersionVectorEntry — a method that does not exist —
raising AttributeError before anything is sent; otherwise the second disjunct
evaluates `get_entry(self.get_replica_id, ...)` whose missing parentheses pass
the bound method itself as the dict key, raising KeyError.  The NEW_VIEW
construction further down the handler is therefore unreachable. -/
def receive_view_change (st : ReplicaState) (data : ViewChangeMessage) :
    Except PyError (ReplicaState × Bool) :=
  let st1 := { st with received_view_change_messages :=
                 st.received_view_change_messages ++ [data] }
  match VersionVector.get_entry st1.version_vector st1.replica_id st1.replica_id with
  | Except.error e => Except.error e
  | Except.ok own =>
    if data.version_vector_entry.view < own.view then
      Except.error .attributeError
    else
      Except.error .keyError

/-- Claim C8 (code_bug), evaluated at the failing input: the receiver's own
last-committed entry is (view 1, seq 5); the incoming VIEW_CHANGE carries
last_committed (view 0, seq 3), strictly behind in (view, seq) lex order, so
the claim requires a PRIMARY_NOT_DOMINANT reply to the sender; the code raises
AttributeError inside the reply branch (VersionVectorEntry has no get_replica
method) and no reply is ever sent.  In the opposite branch the handler raises
KeyError instead (missing parentheses on self.get_replica_id), so the seq part
of the lex comparison is never evaluated either. -/
theorem C8_thm :
    receive_view_change
        { Replica.init 1 0 0 9 [] with version_vector := [(0, [⟨0, 1, 5, 0⟩])] }
        { new_view := 1, replica_id := 2,
          version_vector_entry := ⟨2, 0, 3, 0⟩, P := [] }
      = Except.error PyError.attributeError := rfl

/-- The received-commit store after the `data not in ...` insertion test
(object identity). -/
def commitsAfter (st : ReplicaState) (data : CommitMessage) : List CommitMessage :=
  if st.received_commit_messages.any (fun c => pyEqCommit c data) then
    st.received_commit_messages
  else st.received_commit_messages ++ [data]

/-- The `total` counter of receive_commit: stored commits matching the incoming
one on sequence number and digest object. -/
def commitTotal (st : ReplicaState) (data : CommitMessage) : Nat :=
  (commitsAfter st data).countP
    (fun rc => rc.sequence_number == data.sequence_number && rc.hcd == data.hcd)

/-- Replica.receive_commit.  The version vector is updated and the commit
stored first; on a 2f+1 quorum the handler takes `accepted_requests[-1]`, or
`accepted_requests[0]` — an IndexError — when the list is empty.
`execute_operation` always returns True, so the reply branch always runs: the
reply's to_string is stored in the reply cache (a string, not a ReplyMessage)
and the reply is sent (AttributeError when the client id is unknown, because
find_client returns the string 'Client not found').  On a checkpoint-interval
sequence number the E loop raises KeyError at the first peer with an empty
version vector (is_empty short-circuits into get_entry on the empty dict) and
otherwise leaves E empty.  The oid of the freshly built reply is irrelevant
downstream (only its string form enters the cache) and is fixed at 0.
`peersVV` holds the peers' version vectors read through the object
references. -/
def receive_commit (st : ReplicaState) (peersVV : List VersionVector)
    (data : CommitMessage) :
    Except PyError (ReplicaState × Option ReplyMessage × Option CheckpointMessage) :=
  let vv1 := VersionVector.update_entry st.version_vector st.replica_id
    data.replica_id st.view data.sequence_number data.hcd
  let commits := commitsAfter st data
  let st1 := { st with version_vector := vv1, received_commit_messages := commits }
  if 2 * st.f + 1 ≤ commitTotal st data then
    match st.accepted_requests.getLast? with
    | none => Except.error .indexError
    | some msg_n =>
      let reply : ReplyMessage :=
        { oid := 0, client_id := msg_n.client_id, timestamp := msg_n.timestamp,
          result := "True",
          entry := { oid := 0, replica_id := st.replica_id, view := st.view,
                     sequence_number := data.sequence_number, hcd := st.hcd_oid } }
      let cache1 := pyPutCache st1.reply_cache msg_n.client_id (.rstr reply.to_string)
      let st2 := { st1 with reply_cache := cache1 }
      if msg_n.client_id ∈ st.clients then
        if data.sequence_number % 100 == 0 then
          if peersVV.any (fun v => VersionVector.is_empty v) then
            Except.error .keyError
          else
            let cp : CheckpointMessage :=
              { replica_id := st.replica_id, sequence_number := data.sequence_number,
                rcache := pyGetCache cache1 msg_n.client_id, vv := vv1, E := [] }
            Except.ok ({ st2 with pending_checkpoints :=
                st2.pending_checkpoints ++ [(data.sequence_number, cp)] },
              some reply, some cp)
        else Except.ok (st2, some reply, none)
      else Except.error .attributeError
  else Except.ok (st1, none, none)

/-- Claim C10 (confirmed): in any state with no accepted requests, a commit
message completing a 2f+1 matching quorum drives receive_commit into indexing
`accepted_requests[0]` on the empty list — an unhandled IndexError; the
quorum path is only safe when at least one request has been accepted. -/
theorem C10_thm (st : ReplicaState) (peersVV : List VersionVector)
    (data : CommitMessage) (hacc : st.accepted_requests = [])
    (hq : 2 * st.f + 1 ≤ commitTotal st data) :
    receive_commit st peersVV data = Except.error PyError.indexError := by
  simp only [receive_commit]
  rw [hacc]
  simp [hq]

/-- Replica state used by the C10 witness: a fresh boot with f = 0 and no
accepted requests. -/
def c10St : ReplicaState := Replica.init 0 0 0 3 []

/-- Commit message used by the C10 witness. -/
def c10Commit : CommitMessage :=
  { oid := 40, replica_id := 1, view := 0, sequence_number := 1, hcd := 7 }

/-- Witness for C10_thm: at f = 0 the incoming commit alone is a quorum of
2f+1 = 1 and the handler raises IndexError. -/
theorem C10_w :
    c10St.accepted_requests = []
    ∧ 2 * c10St.f + 1 ≤ commitTotal c10St c10Commit
    ∧ receive_commit c10St [] c10Commit = Except.error PyError.indexError :=
  ⟨rfl, by decide, C10_thm c10St [] c10Commit rfl (by decide)⟩

theorem request_to_string_take (q : RequestMessage) :
    q.to_string.data.take 25 = "Type: MessageType.REQUEST".data := by
  unfold RequestMessage.to_string
  rw [String.data_append, List.take_append_of_le_length (by decide)]
  decide

theorem reply_to_string_take (r : ReplyMessage) :
    r.to_string.data.take 25 = "Type: MessageType.REPLY, ".data := by
  unfold ReplyMessage.to_string
  rw [String.data_append, List.take_append_of_le_length (by decide)]
  decide

/-- A request's string form never equals a reply's (the type tag differs), so
the duplicate test of receive_request always falls through when the cache
holds a ReplyMessage. -/
theorem request_reply_to_string_ne (q : RequestMessage) (r : ReplyMessage) :
    q.to_string ≠ r.to_string := by
  intro h
  have h2 : q.to_string.data.take 25 = r.to_string.data.take 25 := by rw [h]
  rw [request_to_string_take, reply_to_string_take] at h2
  exact absurd h2 (by decide)

/-- Observable outcome of receive_request. -/
inductive RRAct where
  | dropped
  | resent (m : ReplyMessage)
  | accepted (pp : Option PrePrepareMessage)
  | refused
deriving DecidableEq

/-- The accept block of receive_request: the request is recorded and, when the
replica is primary, a PRE_PREPARE with the next sequence number (0 on an
empty chain, last block's + 1 otherwise) is multicast. -/
def rr_accept (st : ReplicaState) (data : RequestMessage) :
    Except PyError (ReplicaState × RRAct) :=
  let sequence_number :=
    match st.chain.getLast? with
    | none => 0
    | some b => b.sequence_number + 1
  let pp := if st.primary then
      some { primary_replica_id := st.replica_id, view := st.view,
             sequence_number := sequence_number, request_msg := data }
    else none
  Except.ok ({ st with accepted_requests := st.accepted_requests ++ [data] },
    RRAct.accepted pp)

/-- The known-state check of receive_request: the CLIENT object's version
vector is consulted for the current system state (AttributeError when the
client was not found); a None system state accepts directly; otherwise the
digest is compared against the cached reply's entry digest — None or a cached
string raise AttributeError at `.get_entry()` — and a mismatch refuses. -/
def rr_known_state (st : ReplicaState) (clientVV : Option VersionVector)
    (data : RequestMessage) (cached : Option ReplyMessage) :
    Except PyError (ReplicaState × RRAct) :=
  match clientVV with
  | none => Except.error .attributeError
  | some cvv =>
    match VersionVector.get_current_system_state cvv st.f with
    | none => rr_accept st data
    | some ce =>
      match cached with
      | none => Except.error .attributeError
      | some m =>
        if ce.hcd == m.entry.hcd then rr_accept st data
        else Except.ok (st, RRAct.refused)

/-- The timestamp dispatch of receive_request: the request timestamp is
compared with the CREATION timestamp of the last hash-chain block (a
time.time() value), not with the cached reply's timestamp.  On equality,
send_reply re-sends the cached value (AttributeError when the client is
unknown or nothing is cached). -/
def rr_core (st : ReplicaState) (clientVV : Option VersionVector)
    (data : RequestMessage) (cached : Option ReplyMessage) :
    Except PyError (ReplicaState × RRAct) :=
  match st.chain.getLast? with
  | some lb =>
    if data.timestamp < lb.timestamp then Except.ok (st, RRAct.dropped)
    else if data.timestamp == lb.timestamp then
      match clientVV, cached with
      | none, _ => Except.error .attributeError
      | some _, none => Except.error .attributeError
      | some _, some m => Except.ok (st, RRAct.resent m)
    else rr_known_state st clientVV data cached
  | none => rr_known_state st clientVV data cached

/-- Replica.receive_request.  `clientVV` is the version vector of the client
object located by find_client (None when the client is unknown; any later use
of the string 'Client not found' raises AttributeError).  A cached STRING (the
shape receive_commit actually stores) raises AttributeError at the
`.to_string()` duplicate test; a cached ReplyMessage never equals the
request's string, so the duplicate test always falls through; an absent cache
entry passes by the None disjunct.  The view-change timer is outside the
model. -/
def receive_request (st : ReplicaState) (clientVV : Option VersionVector)
    (data : RequestMessage) : Except PyError (ReplicaState × RRAct) :=
  match pyGetCache st.reply_cache data.client_id with
  | none => rr_core st clientVV data none
  | some (.rstr _) => Except.error .attributeError
  | some (.rmsg m) =>
    if data.to_string != m.to_string then rr_core st clientVV data (some m)
    else Except.ok (st, RRAct.dropped)

/-- Claim C6 (corrected): with a cached ReplyMessage present and a non-empty
chain, receive_request compares the request timestamp with the creation
timestamp of the LAST HASH-CHAIN BLOCK, not with the cached reply's
timestamp: strictly smaller drops the request, equality re-sends the cached
reply, strictly greater proceeds to the known-state check (which may still
refuse the request). -/
theorem C6_thm (st : ReplicaState) (cvv : VersionVector) (data : RequestMessage)
    (m : ReplyMessage) (lb : HashChainBlock)
    (hc : pyGetCache st.reply_cache data.client_id = some (ReplyCacheVal.rmsg m))
    (hlb : st.chain.getLast? = some lb) :
    (data.timestamp < lb.timestamp →
      receive_request st (some cvv) data = Except.ok (st, RRAct.dropped))
    ∧ (data.timestamp = lb.timestamp →
      receive_request st (some cvv) data = Except.ok (st, RRAct.resent m))
    ∧ (lb.timestamp < data.timestamp →
      receive_request st (some cvv) data
        = rr_known_state st (some cvv) data (some m)) := by
  have hne : (data.to_string != m.to_string) = true := by
    simp only [bne_iff_ne, ne_eq]
    exact request_reply_to_string_ne data m
  unfold receive_request
  rw [hc]
  dsimp only
  rw [if_pos hne]
  unfold rr_core
  rw [hlb]
  dsimp only
  refine ⟨?_, ?_, ?_⟩
  · intro ht
    rw [if_pos ht]
  · intro ht
    rw [if_neg (by omega), if_pos (by simp [ht])]
  · intro ht
    rw [if_neg (by omega), if_neg (by simp only [beq_iff_eq]; omega)]

/-- Cached reply shared by the C6 counterexample and witness: timestamp 5. -/
def c6Reply : ReplyMessage :=
  { oid := 30, client_id := 0, timestamp := 5, result := "True",
    entry := { oid := 31, replica_id := 1, view := 0, sequence_number := 0, hcd := 2 } }

/-- Request shared by the C6 counterexample and witness: timestamp 5, equal to
the cached reply's timestamp. -/
def c6Req : RequestMessage :=
  { oid := 32, operation := "x", timestamp := 5, client_id := 0,
    current_system_state := "none" }

/-- Replica state for the C6 counterexample: the only chain block was created
at time 7. -/
def c6St : ReplicaState :=
  { Replica.init 1 0 0 2 [0] with
      reply_cache := [(0, ReplyCacheVal.rmsg c6Reply)],
      chain := HashChainDigest.add_block modelHash [] 7 "x" 0 }

/-- Counterexample to claim C6 as stated: the request timestamp equals the
cached reply's timestamp (both 5), so the claim requires the cached reply to
be re-sent; the code compares with the last block's creation timestamp 7
instead and silently drops the request. -/
theorem C6_cex :
    c6Req.timestamp = c6Reply.timestamp
    ∧ receive_request c6St (some []) c6Req = Except.ok (c6St, RRAct.dropped) :=
  ⟨rfl, rfl⟩

/-- Replica state for the C6 witness: the only chain block was created at
time 5. -/
def c6StW : ReplicaState :=
  { Replica.init 1 0 0 2 [0] with
      reply_cache := [(0, ReplyCacheVal.rmsg c6Reply)],
      chain := HashChainDigest.add_block modelHash [] 5 "x" 0 }

/-- Witness for C6_thm: at equal request and last-block timestamps the cached
reply is re-sent. -/
theorem C6_w :
    pyGetCache c6StW.reply_cache c6Req.client_id = some (ReplyCacheVal.rmsg c6Reply)
    ∧ c6StW.chain.getLast? = some (HashChainBlock.make modelHash "x" 0 5 "0")
    ∧ receive_request c6StW (some []) c6Req = Except.ok (c6StW, RRAct.resent c6Reply) :=
  ⟨rfl, rfl,
    (C6_thm c6StW [] c6Req c6Reply (HashChainBlock.make modelHash "x" 0 5 "0")
      rfl rfl).2.1 rfl⟩

/-- library/client.py, the client state relevant to handle_reply. -/
structure ClientState where
  client_id : Nat
  f : Nat
  version_vector : VersionVector
  received_replies : List ReplyMessage
  pending_requests : List RequestMessage
deriving DecidableEq

/-- Outcome of handle_reply: consensus reached (print + sys.exit), the digest
comparison failed (implicit None return), or too few matches (False). -/
inductive HRResult where
  | consensus
  | noDecision
  | notEnough
deriving DecidableEq

/-- The matching test of handle_reply: timestamps, client ids and results are
compared by value, entries by OBJECT IDENTITY (`get_entry() ==` on a class
with no __eq__) — matching replies therefore carry the same entry object, and
in particular the SAME entry.replica. -/
def replyMatches (a b : ReplyMessage) : Bool :=
  a.timestamp == b.timestamp && a.client_id == b.client_id
    && a.result == b.result && a.entry.oid == b.entry.oid

/-- Modelled from the claim wording, for comparison: equal on (t, client_id,
result, entry.view, entry.seq, entry.digest) while entry.replica differs. -/
def spec_replies_match (a b : ReplyMessage) : Bool :=
  a.timestamp == b.timestamp && a.client_id == b.client_id
    && a.result == b.result && a.entry.view == b.entry.view
    && a.entry.sequence_number == b.entry.sequence_number
    && a.entry.hcd == b.entry.hcd
    && a.entry.replica_id != b.entry.replica_id

/-- The received-replies store after the `reply not in ...` insertion test
(object identity, so a duplicate object is not re-added but an equal fresh
object is). -/
def receivedAfter (st : ClientState) (r : ReplyMessage) : List ReplyMessage :=
  if st.received_replies.any (fun q => pyEqReply q r) then st.received_replies
  else st.received_replies ++ [r]

/-- The nested counting loops of handle_reply: for every pending request with
the reply's timestamp, every stored reply matching the incoming one is
counted once more. -/
def handle_reply_total (ps : List RequestMessage) (rs : List ReplyMessage)
    (r : ReplyMessage) : Nat :=
  match ps with
  | [] => 0
  | p :: ps2 =>
    (if p.timestamp == r.timestamp then rs.countP (fun q => replyMatches q r) else 0)
      + handle_reply_total ps2 rs r

/-- Python list.remove: drop the first element that is the same object.  The
absent case (Python's ValueError) cannot arise in handle_reply, which removes
an element obtained from the list itself. -/
def pyRemoveFirst (l : List RequestMessage) (x : RequestMessage) : List RequestMessage :=
  match l with
  | [] => []
  | y :: ys => if pyEqReq y x then ys else y :: pyRemoveFirst ys x

/-- Client.handle_reply.  The incoming reply is stored unless the same object
already is; the count runs over every pending request with the reply's
timestamp (`founded_request` ends as the LAST such request); on reaching
2f+1 the request is removed and EVERY stored reply's entry — matching or not —
is appended to the client's own version vector under the client's key; the
current system state of the updated vector is then compared with the reply's
digest (None raises AttributeError at `.get_hcd()`), declaring consensus on
equality; otherwise the handler returns False.  The unbound-`founded_request`
case raises NameError (unreachable: a positive total needs a matching
pending request). -/
def handle_reply (st : ClientState) (reply : ReplyMessage) :
    Except PyError (ClientState × HRResult) :=
  let received := receivedAfter st reply
  if 2 * st.f + 1 ≤ handle_reply_total st.pending_requests received reply then
    match (st.pending_requests.filter
        (fun p => p.timestamp == reply.timestamp)).getLast? with
    | none => Except.error .nameError
    | some founded =>
      let vv1 := received.foldl
        (fun v q => VersionVector.update_entry v st.client_id q.entry.replica_id
          q.entry.view q.entry.sequence_number q.entry.hcd)
        st.version_vector
      match VersionVector.get_current_system_state vv1 st.f with
      | none => Except.error .attributeError
      | some ce =>
        let st1 : ClientState :=
          { st with
            received_replies := received
            pending_requests := pyRemoveFirst st.pending_requests founded
            version_vector := vv1 }
        if ce.hcd == reply.entry.hcd then Except.ok (st1, HRResult.consensus)
        else Except.ok (st1, HRResult.noDecision)
  else Except.ok ({ st with received_replies := received }, HRResult.notEnough)

theorem handle_reply_total_eq (ps : List RequestMessage) (rs : List ReplyMessage)
    (r : ReplyMessage) :
    handle_reply_total ps rs r
      = ps.countP (fun p => p.timestamp == r.timestamp)
          * rs.countP (fun q => replyMatches q r) := by
  induction ps with
  | nil => simp [handle_reply_total]
  | cons p ps ih =>
    rw [handle_reply_total, ih, List.countP_cons]
    cases hp : (p.timestamp == r.timestamp) with
    | false => simp [hp]
    | true => simp [hp]; ring

/-- The entry list a principal currently has in the vector ([] when absent):
the observer used to state what handle_reply appends. -/
def entryListOf (v : VersionVector) (pid : Nat) : List VersionVectorEntry :=
  ((v.find? (fun pv => pv.1 == pid)).map (fun pv => pv.2)).getD []

theorem entryListOf_update (v : VersionVector) (pid e1 e2 e3 e4 : Nat) :
    entryListOf (VersionVector.update_entry v pid e1 e2 e3 e4) pid
      = entryListOf v pid ++ [⟨e1, e2, e3, e4⟩] := by
  unfold VersionVector.update_entry entryListOf
  by_cases h : v.any (fun pv => pv.1 == pid)
  · rw [if_pos h, List.find?_map]
    have hpf : ((fun kv : Nat × List VersionVectorEntry => kv.1 == pid) ∘
        (fun pv => if pv.1 == pid then
          (pv.1, pv.2 ++ [(⟨e1, e2, e3, e4⟩ : VersionVectorEntry)]) else pv))
        = (fun pv => pv.1 == pid) := by
      funext pv
      by_cases hb : (pv.1 == pid) = true
      · simp only [beq_iff_eq] at hb
        simp [hb]
      · simp [Function.comp, hb]
    rw [hpf]
    cases hf : v.find? (fun pv => pv.1 == pid) with
    | none =>
      exfalso
      rw [List.any_eq_true] at h
      obtain ⟨pv, hmem, hp⟩ := h
      exact (List.find?_eq_none.mp hf pv hmem) hp
    | some pv =>
      have hp := List.find?_some (p := fun pv : Nat × List VersionVectorEntry => pv.1 == pid) hf
      simp only [beq_iff_eq] at hp
      simp [hp]
  · rw [if_neg h]
    have hn : v.find? (fun pv => pv.1 == pid) = none := by
      rw [List.find?_eq_none]
      simp only [Bool.not_eq_true] at h
      rw [List.any_eq_false] at h
      exact h
    rw [List.find?_append, hn]
    simp [hn]

theorem entryListOf_foldl (rs : List ReplyMessage) (v : VersionVector) (cid : Nat) :
    entryListOf (rs.foldl
      (fun v2 q => VersionVector.update_entry v2 cid q.entry.replica_id
        q.entry.view q.entry.sequence_number q.entry.hcd) v) cid
      = entryListOf v cid
        ++ rs.map (fun q => (⟨q.entry.replica_id, q.entry.view,
            q.entry.sequence_number, q.entry.hcd⟩ : VersionVectorEntry)) := by
  induction rs generalizing v with
  | nil => simp
  | cons q rs ih =>
    rw [List.foldl_cons, ih, entryListOf_update]
    simp

/-- Claim C9 (corrected): handle_reply counts a stored reply as matching iff
it agrees on (t, client_id, result) and carries THE SAME entry object (hence
the same entry.replica — replies of distinct signers never match, see
C9_cex); the count is the product of the number of pending requests sharing
the timestamp and the number of matching stored replies, with no
distinct-signer requirement; when it reaches 2f+1 the client removes the
request and appends EVERY stored reply's entry (matching or not) to its own
version vector, declaring the request complete only when the updated vector's
current system state has the reply's digest. -/
theorem C9_thm (st : ClientState) (reply : ReplyMessage) (founded : RequestMessage)
    (hfd : (st.pending_requests.filter
        (fun p => p.timestamp == reply.timestamp)).getLast? = some founded)
    (hth : 2 * st.f + 1 ≤
        st.pending_requests.countP (fun p => p.timestamp == reply.timestamp)
          * (receivedAfter st reply).countP (fun q => replyMatches q reply)) :
    (handle_reply st reply =
      (let received := receivedAfter st reply
       let vv1 := received.foldl
         (fun v q => VersionVector.update_entry v st.client_id q.entry.replica_id
           q.entry.view q.entry.sequence_number q.entry.hcd) st.version_vector
       match VersionVector.get_current_system_state vv1 st.f with
       | none => Except.error PyError.attributeError
       | some ce =>
         let st1 : ClientState :=
           { st with
             received_replies := received
             pending_requests := pyRemoveFirst st.pending_requests founded
             version_vector := vv1 }
         if ce.hcd == reply.entry.hcd then Except.ok (st1, HRResult.consensus)
         else Except.ok (st1, HRResult.noDecision)))
    ∧ entryListOf ((receivedAfter st reply).foldl
        (fun v q => VersionVector.update_entry v st.client_id q.entry.replica_id
          q.entry.view q.entry.sequence_number q.entry.hcd) st.version_vector)
        st.client_id
      = entryListOf st.version_vector st.client_id
        ++ (receivedAfter st reply).map
            (fun q => (⟨q.entry.replica_id, q.entry.view, q.entry.sequence_number,
              q.entry.hcd⟩ : VersionVectorEntry)) := by
  constructor
  · simp only [handle_reply]
    rw [handle_reply_total_eq, if_pos hth, hfd]
  · exact entryListOf_foldl _ _ _

/-- Reply used by the C9 counterexample and witness (signer: replica 0). -/
def c9r1 : ReplyMessage :=
  { oid := 50, client_id := 0, timestamp := 5, result := "True",
    entry := { oid := 60, replica_id := 0, view := 0, sequence_number := 1, hcd := 3 } }

/-- Reply used by the C9 counterexample (signer: replica 1, all other fields
equal to c9r1's, fresh objects). -/
def c9r2 : ReplyMessage :=
  { oid := 51, client_id := 0, timestamp := 5, result := "True",
    entry := { oid := 61, replica_id := 1, view := 0, sequence_number := 1, hcd := 3 } }

/-- Counterexample to claim C9 as stated: two replies agreeing on
(t, client_id, result, entry.view, entry.seq, entry.digest) whose
entry.replica differ — by the claim they match; the code's test compares the
entry objects and counts them as NOT matching, so replies of distinct signers
can never form the claimed 2f+1 quorum. -/
theorem C9_cex :
    spec_replies_match c9r1 c9r2 = true ∧ replyMatches c9r1 c9r2 = false := by
  decide

/-- Pending request used by the C9 witness. -/
def c9Pending : RequestMessage :=
  { oid := 70, operation := "x", timestamp := 5, client_id := 0,
    current_system_state := "none" }

/-- Client state used by the C9 witness: f = 0, one pending request. -/
def c9St : ClientState :=
  { client_id := 0, f := 0, version_vector := [], received_replies := [],
    pending_requests := [c9Pending] }

/-- Client state after the C9 witness runs. -/
def c9StAfter : ClientState :=
  { client_id := 0, f := 0, version_vector := [(0, [⟨0, 0, 1, 3⟩])],
    received_replies := [c9r1], pending_requests := [] }

/-- Witness for C9_thm at f = 0: a single pending request and the single
matching (self-matching) reply reach the 2f+1 = 1 threshold, the reply's
entry is appended to the version vector and consensus is declared. -/
theorem C9_w :
    (c9St.pending_requests.filter
        (fun p => p.timestamp == c9r1.timestamp)).getLast? = some c9Pending
    ∧ 2 * c9St.f + 1 ≤
        c9St.pending_requests.countP (fun p => p.timestamp == c9r1.timestamp)
          * (receivedAfter c9St c9r1).countP (fun q => replyMatches q c9r1)
    ∧ handle_reply c9St c9r1 = Except.ok (c9StAfter, HRResult.consensus) :=
  ⟨rfl, by decide,
    (C9_thm c9St c9r1 c9Pending rfl (by decide)).1.trans rfl⟩
